import Mathlib

/-!
Shallow embedding of `kmscsrbuilder/__init__.py` (class `KMSCSRBuilder`).

Modelling conventions:
- Python exceptions are an explicit error type `PyError`; a mutator or the
  build operation returns `Except PyError _`.  `ValueError`/`TypeError` are
  the errors the code raises deliberately (the spec's ConfigurationError /
  EncodingError); `NameError` is Python's unbound-local failure, which the
  code can hit when a branch leaves a local variable unassigned.
- The remote KMS service is external: its responses (`GetPublicKey` result,
  the `SigningAlgorithms` list from `DescribeKey`, the signature bytes from
  `Sign`) are parameters of the functions that consume them.
- asn1crypto values are modelled structurally: an `x509.Name` is an ordered
  list of attribute pairs, `x509.GeneralNames` a list of `GeneralName`
  records, `x509.KeyUsage` / `ExtKeyUsageSyntax` lists of flag names,
  `x509.BasicConstraints` a record.  DER serialization is the external
  library's pure function of these structures and is not re-modelled.
- Python string operations used by the code are modelled directly:
  `a in b` as substring test `pyInStr`, `s[-3:]` as `pyLast3`,
  `int(s)` as the decimal parser `pyInt` (failure = ValueError),
  `sorted(l)` as the stable insertion sort `sortStr` over code-point order.
-/

/-- Python exception kinds relevant to this module. -/
inductive PyError where
  | valueError
  | typeError
  | nameError
deriving DecidableEq, Repr

/-- One `x509.GeneralName`: a choice name (such as "dns_name" or
"ip_address") together with its value. -/
structure GeneralName where
  name : String
  value : String
deriving DecidableEq, Repr

/-- The `x509.BasicConstraints` sequence. -/
structure BasicConstraints where
  ca : Bool
  path_len_constraint : Option Nat := none
deriving DecidableEq, Repr

/-- An asn1crypto value as passed to `set_extension`, tagged with the class
it is an instance of (`isinstance` checks compare this tag). -/
inductive AsnValue where
  | basicConstraints (bc : BasicConstraints)
  | generalNames (names : List GeneralName)
  | keyUsage (flags : List String)
  | extKeyUsage (usages : List String)
  | other (cls : String) (data : String)
deriving DecidableEq, Repr

/-- The asn1crypto class a value is an instance of. -/
def AsnValue.clsName : AsnValue → String
  | .basicConstraints _ => "BasicConstraints"
  | .generalNames _ => "GeneralNames"
  | .keyUsage _ => "KeyUsage"
  | .extKeyUsage _ => "ExtKeyUsageSyntax"
  | .other c _ => c

/-- Response of the remote `GetPublicKey` call: reported key usage and the
raw public key, which `oscrypto.asymmetric.load_public_key` turns into the
cached public-key info (modelled as the bytes themselves). -/
structure PKResponse where
  keyUsage : String
  publicKey : String
deriving DecidableEq, Repr

/-- Builder state: the instance attributes of `KMSCSRBuilder`. -/
structure KMSCSRBuilder where
  subject : List (String × String)
  kms_arn : Option String
  hash_algo : String
  basic_constraints : Option BasicConstraints
  subject_alt_name : Option (List GeneralName)
  key_usage : Option (List String)
  extended_key_usage : Option (List String)
  other_extensions : List (String × AsnValue)
  kms_signature_algo : String
  subject_public_key : Option String
deriving DecidableEq, Repr

/-- Python `needle in haystack` on char lists. -/
def containsSub : List Char → List Char → Bool
  | pat, [] => pat.isEmpty
  | pat, c :: rest => pat.isPrefixOf (c :: rest) || containsSub pat rest

/-- Python's substring membership test `needle in haystack`. -/
def pyInStr (needle haystack : String) : Bool :=
  containsSub needle.toList haystack.toList

/-- Python slicing `s[-3:]`: the last three characters. -/
def pyLast3 (s : String) : String :=
  String.mk (s.toList.drop (s.toList.length - 3))

/-- Decimal digit test on a character. -/
def isDigitChar (c : Char) : Bool :=
  48 ≤ c.toNat && c.toNat ≤ 57

/-- Accumulate decimal digits; any non-digit makes the parse fail. -/
def pyIntAux : List Char → Nat → Option Nat
  | [], acc => some acc
  | c :: cs, acc =>
    if isDigitChar c then pyIntAux cs (acc * 10 + (c.toNat - 48)) else none

/-- Python `int(s)` on a non-negative decimal string: the parsed number,
or failure (= `ValueError`) when the string is not a number. -/
def pyInt (s : String) : Option Nat :=
  match s.toList with
  | [] => none
  | l => pyIntAux l 0

/-- Code-point comparison of strings, as Python compares them. -/
def charListLe : List Char → List Char → Bool
  | [], _ => true
  | _ :: _, [] => false
  | a :: as, b :: bs =>
    if a.toNat < b.toNat then true
    else if b.toNat < a.toNat then false
    else charListLe as bs

/-- Python string comparison `a <= b`. -/
def strLe (a b : String) : Bool :=
  charListLe a.toList b.toList

/-- Insert into a list sorted by code-point order. -/
def insertSorted (x : String) : List String → List String
  | [] => [x]
  | y :: ys => if strLe x y then x :: y :: ys else y :: insertSorted x ys

/-- Python `sorted` on a list of strings. -/
def sortStr (l : List String) : List String :=
  l.foldr insertSorted []

/-- Python dict lookup `d.get(k)` for a dict kept as an insertion-ordered
association list. -/
def pyLookup {α : Type} : List (String × α) → String → Option α
  | [], _ => none
  | (k, v) :: rest, n => if k = n then some v else pyLookup rest n

/-- Python dict assignment `d[k] = v` on an insertion-ordered association
list: update in place when the key exists, else append. -/
def dictInsert {α : Type} : List (String × α) → String → α → List (String × α)
  | [], k, v => [(k, v)]
  | (k2, v2) :: rest, k, v =>
    if k2 = k then (k, v) :: rest else (k2, v2) :: dictInsert rest k v

/-- Python `del d[k]`. -/
def dictErase {α : Type} (d : List (String × α)) (k : String) :
    List (String × α) :=
  d.filter (fun p => p.1 ≠ k)

/-- The class attribute `_special_extensions` (a Python set; kept here in
declaration order, the build sorts it). -/
def special_extensions : List String :=
  ["basic_constraints", "subject_alt_name", "key_usage", "extended_key_usage"]

/-- Setter of the `kms_arn` property.  The code wraps the remote
`GetPublicKey` call in `try/except` whose handler only prints; after a
failed lookup the local `PKresponse` is unbound, so the next line raises
`NameError`.  A reported usage other than SIGN_VERIFY raises `ValueError`;
on success the dereferenced public key is cached in
`_subject_public_key` and the ARN stored. -/
def KMSCSRBuilder.set_kms_arn (b : KMSCSRBuilder) (value : String)
    (lookup : Option PKResponse) : Except PyError KMSCSRBuilder :=
  match lookup with
  | none => .error .nameError
  | some r =>
    if r.keyUsage ≠ "SIGN_VERIFY" then .error .valueError
    else .ok { b with subject_public_key := some r.publicKey, kms_arn := some value }

/-- Setter of the `hash_algo` property. -/
def KMSCSRBuilder.set_hash_algo (b : KMSCSRBuilder) (value : String) :
    Except PyError KMSCSRBuilder :=
  if value ∈ ["sha1", "sha256", "sha512"] then .ok { b with hash_algo := value }
  else .error .valueError

/-- The whitelist in the `kms_signature_algo` setter. -/
def valid_algos : List String :=
  ["RSASSA_PSS_SHA_256",
   "RSASSA_PSS_SHA_384",
   "RSASSA_PSS_SHA_512",
   "RSASSA_PKCS1_V1_5_SHA_256",
   "RSASSA_PKCS1_V1_5_SHA_384",
   "RSASSA_PKCS1_V1_5_SHA_512",
   "ECDSA_SHA_256",
   "ECDSA_SHA_384",
   "ECDSA_SHA_512"]

/-- Setter of the `kms_signature_algo` property. -/
def KMSCSRBuilder.set_kms_signature_algo (b : KMSCSRBuilder) (value : String) :
    Except PyError KMSCSRBuilder :=
  if value ∈ valid_algos then .ok { b with kms_signature_algo := value }
  else .error .valueError

/-- Getter of the `ca` property: `None` when no basic-constraints extension
is requested, else the stored `ca` boolean. -/
def KMSCSRBuilder.ca (b : KMSCSRBuilder) : Option Bool :=
  b.basic_constraints.map BasicConstraints.ca

/-- Setter of the `ca` property (tri-state). -/
def KMSCSRBuilder.set_ca (b : KMSCSRBuilder) (value : Option Bool) : KMSCSRBuilder :=
  match value with
  | none => { b with basic_constraints := none }
  | some v =>
    if v then
      { b with
        basic_constraints := some { ca := true },
        key_usage := some ["key_cert_sign", "crl_sign"],
        extended_key_usage := some ["ocsp_signing"] }
    else
      { b with
        basic_constraints := some { ca := false },
        key_usage := some ["digital_signature", "key_encipherment"],
        extended_key_usage := some ["server_auth", "client_auth"] }

/-- `_get_subject_alt`: native values of the general names of one choice. -/
def KMSCSRBuilder.get_subject_alt (b : KMSCSRBuilder) (name : String) : List String :=
  match b.subject_alt_name with
  | none => []
  | some gns => (gns.filter (fun g => g.name = name)).map GeneralName.value

/-- The list `_set_subject_alt` ends up holding: the kept general names of
the other choices followed by one new general name per value. -/
def KMSCSRBuilder.san_combined (b : KMSCSRBuilder) (name : String)
    (values : Option (List String)) : List GeneralName :=
  (match b.subject_alt_name with
   | some gns => gns.filter (fun g => g.name ≠ name)
   | none => [])
  ++ (values.getD []).map (fun v => { name := name, value := v })

/-- `_set_subject_alt`: drop the general names of the given choice, append
one general name per new value, and store `None` when the result is empty. -/
def KMSCSRBuilder.set_subject_alt (b : KMSCSRBuilder) (name : String)
    (values : Option (List String)) : KMSCSRBuilder :=
  { b with subject_alt_name :=
      if (b.san_combined name values).isEmpty then none
      else some (b.san_combined name values) }

/-- Getter of `subject_alt_domains`. -/
def KMSCSRBuilder.subject_alt_domains (b : KMSCSRBuilder) : List String :=
  b.get_subject_alt "dns_name"

/-- Setter of `subject_alt_domains`. -/
def KMSCSRBuilder.set_subject_alt_domains (b : KMSCSRBuilder)
    (values : Option (List String)) : KMSCSRBuilder :=
  b.set_subject_alt "dns_name" values

/-- Getter of `subject_alt_ips`. -/
def KMSCSRBuilder.subject_alt_ips (b : KMSCSRBuilder) : List String :=
  b.get_subject_alt "ip_address"

/-- Setter of `subject_alt_ips`. -/
def KMSCSRBuilder.set_subject_alt_ips (b : KMSCSRBuilder)
    (values : Option (List String)) : KMSCSRBuilder :=
  b.set_subject_alt "ip_address" values

/-- The per-identity value class of `x509.Extension.spec('extn_value')`,
from asn1crypto's extension-id/value-spec table, for the extension ids the
module's criticality table and the special fields know about.  `none`
means `x509.Extension({'extn_id': name})` itself rejects the name. -/
def extn_spec : String → Option String := fun n =>
  if n = "basic_constraints" then some "BasicConstraints"
  else if n = "subject_alt_name" then some "GeneralNames"
  else if n = "key_usage" then some "KeyUsage"
  else if n = "extended_key_usage" then some "ExtKeyUsageSyntax"
  else if n = "issuer_alt_name" then some "GeneralNames"
  else if n = "name_constraints" then some "NameConstraints"
  else if n = "certificate_policies" then some "CertificatePolicies"
  else if n = "policy_mappings" then some "PolicyMappings"
  else if n = "policy_constraints" then some "PolicyConstraints"
  else if n = "inhibit_any_policy" then some "Integer"
  else if n = "subject_information_access" then some "SubjectInfoAccessSyntax"
  else if n = "tls_feature" then some "Features"
  else if n = "ocsp_no_check" then some "Null"
  else if n = "subject_directory_attributes" then some "Attributes"
  else if n = "crl_distribution_points" then some "CRLDistributionPoints"
  else if n = "authority_information_access" then some "AuthorityInfoAccessSyntax"
  else none

/-- The `setattr(self, '_%s' % name, value)` branch of `set_extension`:
store the given object in the special identity's dedicated field.  The
projections extract the typed payload; `set_extension` only reaches this
after the `isinstance` check, under which each projection succeeds. -/
def KMSCSRBuilder.store_special (b : KMSCSRBuilder) (name : String)
    (value : Option AsnValue) : KMSCSRBuilder :=
  if name = "basic_constraints" then
    { b with basic_constraints :=
        value.bind fun v => match v with | .basicConstraints bc => some bc | _ => none }
  else if name = "subject_alt_name" then
    { b with subject_alt_name :=
        value.bind fun v => match v with | .generalNames g => some g | _ => none }
  else if name = "key_usage" then
    { b with key_usage :=
        value.bind fun v => match v with | .keyUsage f => some f | _ => none }
  else if name = "extended_key_usage" then
    { b with extended_key_usage :=
        value.bind fun v => match v with | .extKeyUsage u => some u | _ => none }
  else b

/-- `set_extension(name, value)`: an unknown extension id fails when the
`x509.Extension` header is built; a non-`None` value that is not an
instance of the id's value class raises `TypeError` before any state is
touched; a special id is stored in its dedicated field; any other id goes
to the `_other_extensions` dict, where `None` deletes the entry. -/
def KMSCSRBuilder.set_extension (b : KMSCSRBuilder) (name : String)
    (value : Option AsnValue) : Except PyError KMSCSRBuilder :=
  match extn_spec name with
  | none => .error .valueError
  | some spec =>
    match value with
    | some v =>
      if v.clsName ≠ spec then .error .typeError
      else if name ∈ special_extensions then .ok (b.store_special name (some v))
      else .ok { b with other_extensions := dictInsert b.other_extensions name v }
    | none =>
      if name ∈ special_extensions then .ok (b.store_special name none)
      else .ok { b with other_extensions := dictErase b.other_extensions name }

/-- The literal criticality dict in `_determine_critical`. -/
def criticality_table : List (String × Bool) :=
  [("subject_directory_attributes", false),
   ("key_usage", true),
   ("issuer_alt_name", false),
   ("name_constraints", true),
   ("certificate_policies", false),
   ("policy_mappings", true),
   ("policy_constraints", true),
   ("extended_key_usage", false),
   ("inhibit_any_policy", true),
   ("subject_information_access", false),
   ("tls_feature", false),
   ("ocsp_no_check", false)]

/-- `_determine_critical`: subject-alt-name is critical iff the subject is
empty, basic-constraints iff `ca is True`, everything else by the literal
table with default `False`. -/
def KMSCSRBuilder.determine_critical (b : KMSCSRBuilder) (name : String) : Bool :=
  if name = "subject_alt_name" then b.subject.length = 0
  else if name = "basic_constraints" then b.ca = some true
  else (pyLookup criticality_table name).getD false

/-- An extension-request entry built by `_make_extension`. -/
structure Extension where
  extn_id : String
  critical : Bool
  extn_value : AsnValue
deriving DecidableEq, Repr

/-- The value `getattr(self, '_%s' % name)` holds for a special extension
name, as the asn1crypto object the field stores. -/
def KMSCSRBuilder.special_value (b : KMSCSRBuilder) (name : String) : Option AsnValue :=
  if name = "basic_constraints" then b.basic_constraints.map AsnValue.basicConstraints
  else if name = "subject_alt_name" then b.subject_alt_name.map AsnValue.generalNames
  else if name = "key_usage" then b.key_usage.map AsnValue.keyUsage
  else if name = "extended_key_usage" then b.extended_key_usage.map AsnValue.extKeyUsage
  else none

/-- The extension list assembled inside `build_with_kms`: the special
extensions that are set, in sorted order, then the other extensions by
sorted dict key, each wrapped by `_make_extension`. -/
def KMSCSRBuilder.build_extensions (b : KMSCSRBuilder) : List Extension :=
  (sortStr special_extensions).filterMap
    (fun n => (b.special_value n).map
      (fun v => { extn_id := n, critical := b.determine_critical n, extn_value := v }))
  ++ (sortStr (b.other_extensions.map Prod.fst)).filterMap
    (fun n => (pyLookup b.other_extensions n).map
      (fun v => { extn_id := n, critical := b.determine_critical n, extn_value := v }))

/-- A CSR attribute (here only `extension_request`). -/
structure CsrAttribute where
  type : String
  values : List (List Extension)
deriving DecidableEq, Repr

/-- The `csr.CertificationRequestInfo` structure assembled by
`build_with_kms`; its DER dump is the exact message sent to `Sign`. -/
structure CertificationRequestInfo where
  version : String
  subject : List (String × String)
  subject_pk_info : Option String
  attributes : List CsrAttribute
deriving DecidableEq, Repr

/-- Assemble the `CertificationRequestInfo` from the builder state. -/
def KMSCSRBuilder.make_cri (b : KMSCSRBuilder) : CertificationRequestInfo :=
  let extensions := b.build_extensions
  { version := "v1",
    subject := b.subject,
    subject_pk_info := b.subject_public_key,
    attributes :=
      if extensions.isEmpty then []
      else [{ type := "extension_request", values := [extensions] }] }

/-- The local signature-algorithm identifier placed in the finished
request: either a plain `{'algorithm': name}` dict or the full
`SignedDigestAlgorithm` with RSASSA-PSS parameters. -/
inductive SignatureAlgorithmId where
  | plain (algorithm : String)
  | rsassaPss (hash_algorithm : String) (mgf1_hash : String) (salt_length : Nat)
deriving DecidableEq, Repr

/-- The finished `csr.CertificationRequest`. -/
structure CertificationRequest where
  certification_request_info : CertificationRequestInfo
  signature_algorithm : SignatureAlgorithmId
  signature : String
deriving DecidableEq, Repr

/-- The key-type selection at the top of `build_with_kms`: an `if/elif`
with no `else`, testing only the two literal names; when neither is in the
reported list the local `signature_algo` stays unbound and the very next
use raises `NameError`. -/
def classify_key (kms_algos : List String) : Except PyError String :=
  if "RSASSA_PSS_SHA_256" ∈ kms_algos then .ok "rsa"
  else if "ECDSA_SHA_256" ∈ kms_algos then .ok "ecdsa"
  else .error .nameError

/-- The algorithm-negotiation block of `build_with_kms`: builds the local
signature-algorithm identifier and assigns the remote name through the
validating `kms_signature_algo` setter.  `int(self._hash_algo[-3:])`
raises `ValueError` when the last three characters are not a number. -/
def KMSCSRBuilder.negotiate (b : KMSCSRBuilder) (signature_algo : String) :
    Except PyError (SignatureAlgorithmId × KMSCSRBuilder) :=
  if pyInStr "ecdsa" signature_algo then
    match b.set_kms_signature_algo ("ECDSA_SHA_" ++ pyLast3 b.hash_algo) with
    | .error e => .error e
    | .ok b2 => .ok (.plain (b.hash_algo ++ "_" ++ signature_algo), b2)
  else if pyInStr "rsa" signature_algo then
    if pyInStr "PSS" b.kms_signature_algo then
      match pyInt (pyLast3 b.hash_algo) with
      | none => .error .valueError
      | some w =>
        match b.set_kms_signature_algo ("RSASSA_PSS_SHA_" ++ pyLast3 b.hash_algo) with
        | .error e => .error e
        | .ok b2 => .ok (.rsassaPss b.hash_algo b.hash_algo (w / 8), b2)
    else
      match b.set_kms_signature_algo ("RSASSA_PKCS1_V1_5_SHA_" ++ pyLast3 b.hash_algo) with
      | .error e => .error e
      | .ok b2 => .ok (.plain (b.hash_algo ++ "_" ++ signature_algo), b2)
  else .error .nameError

/-- `build_with_kms(kms_arn)`.  The two remote responses are parameters:
`kms_algos` is `DescribeKey(...)['KeyMetadata']['SigningAlgorithms']` and
`signature` the bytes the `Sign` call returns for the dumped
`CertificationRequestInfo`.  Returns the mutated builder (only
`_kms_signature_algo` is reassigned) together with the finished request. -/
def KMSCSRBuilder.build_with_kms (b : KMSCSRBuilder) (kms_algos : List String)
    (signature : String) : Except PyError (KMSCSRBuilder × CertificationRequest) :=
  match classify_key kms_algos with
  | .error e => .error e
  | .ok signature_algo =>
    match b.negotiate signature_algo with
    | .error e => .error e
    | .ok (sid, b2) =>
      .ok (b2,
        { certification_request_info := b2.make_cri,
          signature_algorithm := sid,
          signature := signature })

/-- `__init__(subject, kms_arn)`: store the subject, dereference the key
through the `kms_arn` setter, set `ca = False`, and apply the documented
defaults (sha256 hash, empty other-extension dict, RSASSA_PSS_SHA_256
preference). -/
def KMSCSRBuilder.init (subject : List (String × String)) (arn : String)
    (lookup : Option PKResponse) : Except PyError KMSCSRBuilder :=
  let base : KMSCSRBuilder :=
    { subject := subject,
      kms_arn := none,
      hash_algo := "sha256",
      basic_constraints := none,
      subject_alt_name := none,
      key_usage := none,
      extended_key_usage := none,
      other_extensions := [],
      kms_signature_algo := "RSASSA_PSS_SHA_256",
      subject_public_key := none }
  match base.set_kms_arn arn lookup with
  | .error e => .error e
  | .ok b => .ok (b.set_ca (some false))

/-- Getter of the `key_usage` property (`set()` when unset, modelled as the
empty flag list). -/
def KMSCSRBuilder.get_key_usage (b : KMSCSRBuilder) : List String :=
  b.key_usage.getD []

/-- Getter of the `extended_key_usage` property. -/
def KMSCSRBuilder.get_extended_key_usage (b : KMSCSRBuilder) : List String :=
  b.extended_key_usage.getD []

/-- The identities `_determine_critical` treats specially plus the keys of
its literal table; every other identity is unknown to it. -/
def criticality_known_names : List String :=
  "subject_alt_name" :: "basic_constraints" :: criticality_table.map Prod.fst

/-- Written from the spec's wording for the assembly order: "special
extensions sorted by canonical name, then other extensions sorted by
canonical name" — the extension ids the built request should list, in
order. -/
def spec_extension_order (b : KMSCSRBuilder) : List String :=
  sortStr (special_extensions.filter (fun n => (b.special_value n).isSome))
  ++ sortStr (b.other_extensions.map Prod.fst)

/-- A concrete builder state, as `__init__` leaves it for a one-attribute
subject and a successfully dereferenced SIGN_VERIFY key. -/
def bEx : KMSCSRBuilder :=
  { subject := [("common_name", "Example")],
    kms_arn := some "arn:aws:kms:us-east-1:111122223333:key/test",
    hash_algo := "sha256",
    basic_constraints := some { ca := false },
    subject_alt_name := none,
    key_usage := some ["digital_signature", "key_encipherment"],
    extended_key_usage := some ["server_auth", "client_auth"],
    other_extensions := [],
    kms_signature_algo := "RSASSA_PSS_SHA_256",
    subject_public_key := some "PUBKEY" }

lemma mem_insertSorted (x y : String) (l : List String) :
    x ∈ insertSorted y l ↔ x = y ∨ x ∈ l := by
  induction l with
  | nil => simp [insertSorted]
  | cons z zs ih =>
    by_cases hc : strLe y z = true
    · simp [insertSorted, hc]
    · simp only [insertSorted, if_neg hc, List.mem_cons, ih]
      tauto

lemma mem_sortStr (x : String) (l : List String) :
    x ∈ sortStr l ↔ x ∈ l := by
  induction l with
  | nil => simp [sortStr]
  | cons y ys ih =>
    simp only [sortStr, List.foldr_cons] at ih ⊢
    rw [mem_insertSorted, ih, List.mem_cons]

lemma pyLookup_eq_none {α : Type} (d : List (String × α)) (n : String)
    (h : n ∉ d.map Prod.fst) : pyLookup d n = none := by
  induction d with
  | nil => rfl
  | cons p rest ih =>
    simp only [List.map_cons, List.mem_cons, not_or] at h
    obtain ⟨h1, h2⟩ := h
    have : p.1 ≠ n := fun e => h1 e.symm
    cases p with
    | mk k v => simpa [pyLookup, this] using ih h2

lemma pyLookup_isSome_of_mem {α : Type} (d : List (String × α)) (n : String)
    (h : n ∈ d.map Prod.fst) : (pyLookup d n).isSome := by
  induction d with
  | nil => simp at h
  | cons p rest ih =>
    cases p with
    | mk k v =>
      by_cases hk : k = n
      · simp [pyLookup, hk]
      · simp only [List.map_cons, List.mem_cons] at h
        rcases h with h | h
        · exact absurd h.symm hk
        · simpa [pyLookup, hk] using ih h

lemma pyLookup_dictInsert_self {α : Type} (d : List (String × α)) (k : String) (v : α) :
    pyLookup (dictInsert d k v) k = some v := by
  induction d with
  | nil => simp [dictInsert, pyLookup]
  | cons p rest ih =>
    cases p with
    | mk k2 v2 =>
      by_cases hk : k2 = k
      · simp [dictInsert, pyLookup, hk]
      · simpa [dictInsert, pyLookup, hk] using ih

lemma pyLookup_dictErase_self {α : Type} (d : List (String × α)) (k : String) :
    pyLookup (dictErase d k) k = none := by
  unfold dictErase
  induction d with
  | nil => rfl
  | cons p rest ih =>
    cases p with
    | mk k' v' =>
      by_cases hk : k' = k
      · simpa [hk] using ih
      · simpa [pyLookup, hk] using ih

lemma build_ids_aux (b : KMSCSRBuilder) (l : List String) (f : String → Option AsnValue) :
    ((l.filterMap (fun n => (f n).map
        (fun v => ({ extn_id := n, critical := b.determine_critical n,
                     extn_value := v } : Extension)))).map Extension.extn_id)
      = l.filter (fun n => (f n).isSome) := by
  induction l with
  | nil => rfl
  | cons n ns ih =>
    cases hf : f n <;>
      simp [List.filterMap_cons, List.filter_cons, hf, ih]

lemma build_ext_ids (b : KMSCSRBuilder) :
    b.build_extensions.map Extension.extn_id
      = (sortStr special_extensions).filter (fun n => (b.special_value n).isSome)
        ++ sortStr (b.other_extensions.map Prod.fst) := by
  unfold KMSCSRBuilder.build_extensions
  rw [List.map_append, build_ids_aux, build_ids_aux]
  congr 1
  apply List.filter_eq_self.mpr
  intro n hn
  rw [mem_sortStr] at hn
  simpa using pyLookup_isSome_of_mem _ _ hn

lemma sorted_filter_special (b : KMSCSRBuilder) :
    (sortStr special_extensions).filter (fun n => (b.special_value n).isSome)
      = sortStr (special_extensions.filter (fun n => (b.special_value n).isSome)) := by
  obtain ⟨s, arn, h, bc, san, ku, eku, oth, ksa, spk⟩ := b
  cases bc <;> cases san <;> cases ku <;> cases eku <;> rfl

/-- C1: the claim says the `kms_arn` setter fails fast with a
ConfigurationError exactly when the public-key lookup fails or the
reported usage is not SIGN_VERIFY, and caches the public key on success.
The usage-mismatch and success halves hold, but on a failed lookup the
code only prints inside its bare `except:` handler and continues; the
subsequent read of the unbound `PKresponse` raises `NameError`, so the
lookup failure is absorbed rather than reported as a configuration
error.  This theorem evaluates the setter at the failing input (a lookup
that returns nothing) and at the two in-spec inputs. -/
theorem c1_kms_arn_lookup_failure :
    bEx.set_kms_arn "arn:aws:kms:us-east-1:111122223333:key/fail" none
      = .error .nameError
    ∧ bEx.set_kms_arn "arn:aws:kms:us-east-1:111122223333:key/enc"
        (some { keyUsage := "ENCRYPT_DECRYPT", publicKey := "PK1" })
      = .error .valueError
    ∧ bEx.set_kms_arn "arn:aws:kms:us-east-1:111122223333:key/ok"
        (some { keyUsage := "SIGN_VERIFY", publicKey := "PK1" })
      = .ok { bEx with
              subject_public_key := some "PK1",
              kms_arn := some "arn:aws:kms:us-east-1:111122223333:key/ok" } :=
  ⟨rfl, rfl, rfl⟩

/-- C3: for a fixed builder configuration the to-be-signed
`CertificationRequestInfo` is a deterministic function of the
configuration — two builds over the same state and reported algorithm set
agree on it even when the remote returns different signature bytes — and
the extension-request attribute lists the special extensions sorted by
canonical name first, then the other extensions sorted by canonical name
(`spec_extension_order` is the order the spec's words describe). -/
theorem c3_deterministic_build (b : KMSCSRBuilder) (algos : List String)
    (s1 s2 : String) :
    (b.build_with_kms algos s1).map (fun p => p.2.certification_request_info)
      = (b.build_with_kms algos s2).map (fun p => p.2.certification_request_info)
    ∧ b.build_extensions.map Extension.extn_id = spec_extension_order b := by
  constructor
  · rcases hc : classify_key algos with e | sa
    · simp [KMSCSRBuilder.build_with_kms, hc]
    · rcases hn : b.negotiate sa with e | p <;>
        simp [KMSCSRBuilder.build_with_kms, hc, hn, Except.map]
  · rw [build_ext_ids, spec_extension_order, sorted_filter_special]

/-- C4: `_determine_critical` is a pure lookup; subject-alt-name is
critical exactly when the subject is empty, basic-constraints exactly when
`ca` reads back `True`, the five listed identities are critical, the six
listed ones are not, and any identity outside the module's table is
non-critical. -/
theorem c4_determine_critical (b : KMSCSRBuilder) (name : String)
    (h : name ∉ criticality_known_names) :
    (b.determine_critical "subject_alt_name" = true ↔ b.subject = [])
    ∧ (b.determine_critical "basic_constraints" = true ↔ b.ca = some true)
    ∧ b.determine_critical "key_usage" = true
    ∧ b.determine_critical "name_constraints" = true
    ∧ b.determine_critical "policy_mappings" = true
    ∧ b.determine_critical "policy_constraints" = true
    ∧ b.determine_critical "inhibit_any_policy" = true
    ∧ b.determine_critical "issuer_alt_name" = false
    ∧ b.determine_critical "certificate_policies" = false
    ∧ b.determine_critical "extended_key_usage" = false
    ∧ b.determine_critical "subject_information_access" = false
    ∧ b.determine_critical "tls_feature" = false
    ∧ b.determine_critical "ocsp_no_check" = false
    ∧ b.determine_critical name = false := by
  simp only [criticality_known_names, List.mem_cons, not_or] at h
  obtain ⟨h1, h2, h3⟩ := h
  refine ⟨?_, ?_, rfl, rfl, rfl, rfl, rfl, rfl, rfl, rfl, rfl, rfl, rfl, ?_⟩
  · simp [KMSCSRBuilder.determine_critical, List.length_eq_zero]
  · simp [KMSCSRBuilder.determine_critical]
  · simp [KMSCSRBuilder.determine_critical, h1, h2, pyLookup_eq_none _ _ h3]

/-- C4 witness: the theorem applied to a concrete builder and the unknown
identity "some_private_extension". -/
theorem c4_determine_critical_witness :
    "some_private_extension" ∉ criticality_known_names
    ∧ bEx.determine_critical "some_private_extension" = false :=
  ⟨by decide,
   (c4_determine_critical bEx "some_private_extension" (by decide)).2.2.2.2.2.2.2.2.2.2.2.2.2⟩

lemma build_with_kms_eq (b : KMSCSRBuilder) (algos : List String) (s sa : String)
    (sid : SignatureAlgorithmId) (b2 : KMSCSRBuilder)
    (hc : classify_key algos = .ok sa) (hn : b.negotiate sa = .ok (sid, b2)) :
    b.build_with_kms algos s
      = .ok (b2, { certification_request_info := b2.make_cri,
                   signature_algorithm := sid, signature := s }) := by
  simp [KMSCSRBuilder.build_with_kms, hc, hn]

lemma negotiate_rsa_pss (b : KMSCSRBuilder)
    (hp : pyInStr "PSS" b.kms_signature_algo = true)
    (hh : b.hash_algo = "sha256" ∨ b.hash_algo = "sha512") :
    b.negotiate "rsa" = .ok
      (.rsassaPss b.hash_algo b.hash_algo (if b.hash_algo = "sha256" then 32 else 64),
       { b with kms_signature_algo := "RSASSA_PSS_SHA_" ++ pyLast3 b.hash_algo }) := by
  rcases hh with h | h <;>
    simp [KMSCSRBuilder.negotiate, h, hp, KMSCSRBuilder.set_kms_signature_algo, valid_algos,
      show pyInStr "ecdsa" "rsa" = false from rfl,
      show pyInStr "rsa" "rsa" = true from rfl,
      show pyInt (pyLast3 "sha256") = some 256 from rfl,
      show pyInt (pyLast3 "sha512") = some 512 from rfl,
      show ("RSASSA_PSS_SHA_" ++ pyLast3 "sha256" : String) = "RSASSA_PSS_SHA_256" from rfl,
      show ("RSASSA_PSS_SHA_" ++ pyLast3 "sha512" : String) = "RSASSA_PSS_SHA_512" from rfl]

lemma negotiate_rsa_pkcs (b : KMSCSRBuilder)
    (hp : pyInStr "PSS" b.kms_signature_algo = false)
    (hh : b.hash_algo = "sha256" ∨ b.hash_algo = "sha512") :
    b.negotiate "rsa" = .ok
      (.plain (b.hash_algo ++ "_rsa"),
       { b with kms_signature_algo := "RSASSA_PKCS1_V1_5_SHA_" ++ pyLast3 b.hash_algo }) := by
  rcases hh with h | h <;>
    simp [KMSCSRBuilder.negotiate, h, hp, KMSCSRBuilder.set_kms_signature_algo, valid_algos,
      show pyInStr "ecdsa" "rsa" = false from rfl,
      show pyInStr "rsa" "rsa" = true from rfl,
      show ("sha256" ++ "_" ++ "rsa" : String) = "sha256_rsa" from rfl,
      show ("sha512" ++ "_" ++ "rsa" : String) = "sha512_rsa" from rfl,
      show ("sha256" ++ "_rsa" : String) = "sha256_rsa" from rfl,
      show ("sha512" ++ "_rsa" : String) = "sha512_rsa" from rfl,
      show ("RSASSA_PKCS1_V1_5_SHA_" ++ pyLast3 "sha256" : String)
        = "RSASSA_PKCS1_V1_5_SHA_256" from rfl,
      show ("RSASSA_PKCS1_V1_5_SHA_" ++ pyLast3 "sha512" : String)
        = "RSASSA_PKCS1_V1_5_SHA_512" from rfl]

lemma negotiate_ecdsa (b : KMSCSRBuilder)
    (hh : b.hash_algo = "sha256" ∨ b.hash_algo = "sha512") :
    b.negotiate "ecdsa" = .ok
      (.plain (b.hash_algo ++ "_ecdsa"),
       { b with kms_signature_algo := "ECDSA_SHA_" ++ pyLast3 b.hash_algo }) := by
  rcases hh with h | h <;>
    simp [KMSCSRBuilder.negotiate, h, KMSCSRBuilder.set_kms_signature_algo, valid_algos,
      show pyInStr "ecdsa" "ecdsa" = true from rfl,
      show ("sha256" ++ "_" ++ "ecdsa" : String) = "sha256_ecdsa" from rfl,
      show ("sha512" ++ "_" ++ "ecdsa" : String) = "sha512_ecdsa" from rfl,
      show ("sha256" ++ "_ecdsa" : String) = "sha256_ecdsa" from rfl,
      show ("sha512" ++ "_ecdsa" : String) = "sha512_ecdsa" from rfl,
      show ("ECDSA_SHA_" ++ pyLast3 "sha256" : String) = "ECDSA_SHA_256" from rfl,
      show ("ECDSA_SHA_" ++ pyLast3 "sha512" : String) = "ECDSA_SHA_512" from rfl]

/-- C2 counterexample: a reported algorithm set that contains RSA-PSS
names (only not the one the code greps for) is, per the claim, an RSA
classification — but `build_with_kms` raises `NameError` from the unbound
local `signature_algo`, which is neither an RSA classification nor the
claimed ConfigurationError. -/
theorem c2_counterexample :
    "RSASSA_PSS_SHA_384" ∈ ["RSASSA_PSS_SHA_384", "RSASSA_PSS_SHA_512"]
    ∧ bEx.build_with_kms ["RSASSA_PSS_SHA_384", "RSASSA_PSS_SHA_512"] "SIG"
        = .error .nameError :=
  ⟨by decide, rfl⟩

/-- C2 amended: the key type is classified as RSA exactly when the literal
"RSASSA_PSS_SHA_256" is among the reported names, else as EC exactly when
the literal "ECDSA_SHA_256" is; when neither literal is present the build
fails with Python's `NameError` for the unbound local, not with a
ConfigurationError. -/
theorem c2_key_classification (algos : List String) (b : KMSCSRBuilder) (s : String) :
    ("RSASSA_PSS_SHA_256" ∈ algos → classify_key algos = .ok "rsa")
    ∧ ("RSASSA_PSS_SHA_256" ∉ algos → "ECDSA_SHA_256" ∈ algos →
        classify_key algos = .ok "ecdsa")
    ∧ ("RSASSA_PSS_SHA_256" ∉ algos → "ECDSA_SHA_256" ∉ algos →
        b.build_with_kms algos s = .error .nameError) :=
  ⟨fun h1 => by simp [classify_key, h1],
   fun h1 h2 => by simp [classify_key, h1, h2],
   fun h1 h2 => by simp [KMSCSRBuilder.build_with_kms, classify_key, h1, h2]⟩

/-- C2 witness: the three classification cases at concrete algorithm
sets. -/
theorem c2_key_classification_witness :
    classify_key ["RSASSA_PSS_SHA_256"] = .ok "rsa"
    ∧ classify_key ["ECDSA_SHA_256"] = .ok "ecdsa"
    ∧ bEx.build_with_kms ["SM2DSA"] "SIG" = .error .nameError :=
  ⟨(c2_key_classification ["RSASSA_PSS_SHA_256"] bEx "SIG").1 (by decide),
   (c2_key_classification ["ECDSA_SHA_256"] bEx "SIG").2.1 (by decide) (by decide),
   (c2_key_classification ["SM2DSA"] bEx "SIG").2.2 (by decide) (by decide)⟩

/-- C5 counterexample: "sha1" is accepted by the `hash_algo` setter, the
default preference names PSS, and the key is RSA-classified — yet with
that configuration negotiation does not produce the claimed PSS parameter
set (salt 160/8 = 20): `int("ha1")` raises `ValueError` and the build
fails. -/
theorem c5_counterexample :
    bEx.set_hash_algo "sha1" = .ok { bEx with hash_algo := "sha1" }
    ∧ pyInStr "PSS" bEx.kms_signature_algo = true
    ∧ { bEx with hash_algo := "sha1" }.build_with_kms ["RSASSA_PSS_SHA_256"] "SIG"
        = .error .valueError :=
  ⟨rfl, rfl, rfl⟩

/-- C5 amended: for an RSA-classified key and a hash of sha256 or sha512
(with sha1 the build raises ValueError instead), a preference naming PSS
negotiates the full PSS parameter set — the configured hash, MGF1 with
the same hash, salt length = hash width in bits / 8 (32 for sha256, 64
for sha512) — and remote name "RSASSA_PSS_SHA_<width>"; a preference not
naming PSS negotiates the plain `<hash>_rsa` identifier and remote name
"RSASSA_PKCS1_V1_5_SHA_<width>". -/
theorem c5_rsa_negotiation (b : KMSCSRBuilder) (algos : List String) (s : String)
    (hr : "RSASSA_PSS_SHA_256" ∈ algos)
    (hh : b.hash_algo = "sha256" ∨ b.hash_algo = "sha512") :
    (pyInStr "PSS" b.kms_signature_algo = true →
      ∃ b2, b.build_with_kms algos s
          = .ok (b2, { certification_request_info := b2.make_cri,
                       signature_algorithm :=
                         .rsassaPss b.hash_algo b.hash_algo
                           (if b.hash_algo = "sha256" then 32 else 64),
                       signature := s })
        ∧ b2.kms_signature_algo = "RSASSA_PSS_SHA_" ++ pyLast3 b.hash_algo
        ∧ b2.kms_signature_algo
            = (if b.hash_algo = "sha256" then "RSASSA_PSS_SHA_256"
               else "RSASSA_PSS_SHA_512"))
    ∧ (pyInStr "PSS" b.kms_signature_algo = false →
      ∃ b2, b.build_with_kms algos s
          = .ok (b2, { certification_request_info := b2.make_cri,
                       signature_algorithm := .plain (b.hash_algo ++ "_rsa"),
                       signature := s })
        ∧ b2.kms_signature_algo = "RSASSA_PKCS1_V1_5_SHA_" ++ pyLast3 b.hash_algo) := by
  have hc : classify_key algos = .ok "rsa" := by simp [classify_key, hr]
  constructor
  · intro hp
    refine ⟨{ b with kms_signature_algo := "RSASSA_PSS_SHA_" ++ pyLast3 b.hash_algo },
      build_with_kms_eq _ _ _ _ _ _ hc (negotiate_rsa_pss b hp hh), rfl, ?_⟩
    rcases hh with h | h <;>
      simp [h,
        show ("RSASSA_PSS_SHA_" ++ pyLast3 "sha256" : String) = "RSASSA_PSS_SHA_256" from rfl,
        show ("RSASSA_PSS_SHA_" ++ pyLast3 "sha512" : String) = "RSASSA_PSS_SHA_512" from rfl]
  · intro hp
    exact ⟨{ b with kms_signature_algo := "RSASSA_PKCS1_V1_5_SHA_" ++ pyLast3 b.hash_algo },
      build_with_kms_eq _ _ _ _ _ _ hc (negotiate_rsa_pkcs b hp hh), rfl⟩

/-- C5 witness: the PSS case at the concrete default-preference builder
with hash sha256. -/
theorem c5_rsa_negotiation_witness :
    pyInStr "PSS" bEx.kms_signature_algo = true
    ∧ (∃ b2, bEx.build_with_kms ["RSASSA_PSS_SHA_256", "RSASSA_PSS_SHA_384"] "SIG"
          = .ok (b2, { certification_request_info := b2.make_cri,
                       signature_algorithm :=
                         .rsassaPss bEx.hash_algo bEx.hash_algo
                           (if bEx.hash_algo = "sha256" then 32 else 64),
                       signature := "SIG" })
        ∧ b2.kms_signature_algo = "RSASSA_PSS_SHA_" ++ pyLast3 bEx.hash_algo
        ∧ b2.kms_signature_algo
            = (if bEx.hash_algo = "sha256" then "RSASSA_PSS_SHA_256"
               else "RSASSA_PSS_SHA_512")) :=
  ⟨rfl,
   (c5_rsa_negotiation bEx ["RSASSA_PSS_SHA_256", "RSASSA_PSS_SHA_384"] "SIG"
     (by decide) (Or.inl rfl)).1 rfl⟩

/-- C6 counterexample: `["ECDSA_SHA_384"]` contains only ECDSA algorithm
names, yet the build raises `NameError` instead of negotiating
`ECDSA_SHA_512` for the configured sha512 hash; and with the legal hash
"sha1" even a key reporting "ECDSA_SHA_256" fails (`ValueError` from the
remote-name whitelist, the claimed width "ha1" being no number). -/
theorem c6_counterexample :
    { bEx with hash_algo := "sha512" }.build_with_kms ["ECDSA_SHA_384"] "SIG"
        = .error .nameError
    ∧ { bEx with hash_algo := "sha1" }.build_with_kms ["ECDSA_SHA_256"] "SIG"
        = .error .valueError :=
  ⟨rfl, rfl⟩

/-- C6 amended: for a reported set containing "ECDSA_SHA_256" and not
"RSASSA_PSS_SHA_256", with hash sha256 or sha512, negotiation yields the
local `<hash>_ecdsa` identifier and remote name "ECDSA_SHA_<width>" with
width the last three characters of the hash name; in particular sha512
yields "ECDSA_SHA_512".  (A set with other ECDSA names only, or the legal
hash "sha1", makes the build fail instead — see the counterexample.) -/
theorem c6_ec_negotiation (b : KMSCSRBuilder) (algos : List String) (s : String)
    (h1 : "RSASSA_PSS_SHA_256" ∉ algos) (h2 : "ECDSA_SHA_256" ∈ algos)
    (hh : b.hash_algo = "sha256" ∨ b.hash_algo = "sha512") :
    ∃ b2, b.build_with_kms algos s
        = .ok (b2, { certification_request_info := b2.make_cri,
                     signature_algorithm := .plain (b.hash_algo ++ "_ecdsa"),
                     signature := s })
      ∧ b2.kms_signature_algo = "ECDSA_SHA_" ++ pyLast3 b.hash_algo
      ∧ (b.hash_algo = "sha512" → b2.kms_signature_algo = "ECDSA_SHA_512") := by
  have hc : classify_key algos = .ok "ecdsa" := by simp [classify_key, h1, h2]
  refine ⟨{ b with kms_signature_algo := "ECDSA_SHA_" ++ pyLast3 b.hash_algo },
    build_with_kms_eq _ _ _ _ _ _ hc (negotiate_ecdsa b hh), rfl, ?_⟩
  intro h
  simp [h, show ("ECDSA_SHA_" ++ pyLast3 "sha512" : String) = "ECDSA_SHA_512" from rfl]

/-- C6 witness: the sha512 stub-key scenario of the spec's testable
property. -/
theorem c6_ec_negotiation_witness :
    "RSASSA_PSS_SHA_256" ∉ (["ECDSA_SHA_256"] : List String)
    ∧ "ECDSA_SHA_256" ∈ (["ECDSA_SHA_256"] : List String)
    ∧ (∃ b2, { bEx with hash_algo := "sha512" }.build_with_kms ["ECDSA_SHA_256"] "SIG"
          = .ok (b2, { certification_request_info := b2.make_cri,
                       signature_algorithm :=
                         .plain ({ bEx with hash_algo := "sha512" }.hash_algo ++ "_ecdsa"),
                       signature := "SIG" })
        ∧ b2.kms_signature_algo
            = "ECDSA_SHA_" ++ pyLast3 { bEx with hash_algo := "sha512" }.hash_algo
        ∧ ({ bEx with hash_algo := "sha512" }.hash_algo = "sha512" →
            b2.kms_signature_algo = "ECDSA_SHA_512")) :=
  ⟨by decide, by decide,
   c6_ec_negotiation { bEx with hash_algo := "sha512" } ["ECDSA_SHA_256"] "SIG"
     (by decide) (by decide) (Or.inr rfl)⟩

lemma set_kms_signature_algo_ok (b : KMSCSRBuilder) (vstr : String) (b2 : KMSCSRBuilder)
    (h : b.set_kms_signature_algo vstr = .ok b2) :
    b2 = { b with kms_signature_algo := vstr } := by
  by_cases hv : vstr ∈ valid_algos
  · simp [KMSCSRBuilder.set_kms_signature_algo, hv] at h
    exact h.symm
  · simp [KMSCSRBuilder.set_kms_signature_algo, hv] at h

lemma negotiate_ok_ksa (b : KMSCSRBuilder) (sa : String) (sid : SignatureAlgorithmId)
    (b2 : KMSCSRBuilder) (h : b.negotiate sa = .ok (sid, b2)) :
    b2 = { b with kms_signature_algo :=
      (if pyInStr "ecdsa" sa = true then "ECDSA_SHA_" ++ pyLast3 b.hash_algo
       else if pyInStr "PSS" b.kms_signature_algo = true then
         "RSASSA_PSS_SHA_" ++ pyLast3 b.hash_algo
       else "RSASSA_PKCS1_V1_5_SHA_" ++ pyLast3 b.hash_algo) } := by
  unfold KMSCSRBuilder.negotiate at h
  by_cases he : pyInStr "ecdsa" sa = true
  · rw [if_pos he] at h
    rw [if_pos he]
    rcases hs : b.set_kms_signature_algo ("ECDSA_SHA_" ++ pyLast3 b.hash_algo) with e | b3
    · rw [hs] at h; simp at h
    · rw [hs] at h
      simp only [Except.ok.injEq, Prod.mk.injEq] at h
      rw [← h.2]
      exact set_kms_signature_algo_ok _ _ _ hs
  · rw [if_neg he] at h
    rw [if_neg he]
    by_cases hr : pyInStr "rsa" sa = true
    · rw [if_pos hr] at h
      by_cases hp : pyInStr "PSS" b.kms_signature_algo = true
      · rw [if_pos hp] at h
        rw [if_pos hp]
        rcases hi : pyInt (pyLast3 b.hash_algo) with _ | w
        · rw [hi] at h; simp at h
        · rw [hi] at h
          rcases hs : b.set_kms_signature_algo ("RSASSA_PSS_SHA_" ++ pyLast3 b.hash_algo)
            with e | b3
          · rw [hs] at h; simp at h
          · rw [hs] at h
            simp only [Except.ok.injEq, Prod.mk.injEq] at h
            rw [← h.2]
            exact set_kms_signature_algo_ok _ _ _ hs
      · rw [if_neg hp] at h
        rw [if_neg hp]
        rcases hs : b.set_kms_signature_algo ("RSASSA_PKCS1_V1_5_SHA_" ++ pyLast3 b.hash_algo)
          with e | b3
        · rw [hs] at h; simp at h
        · rw [hs] at h
          simp only [Except.ok.injEq, Prod.mk.injEq] at h
          rw [← h.2]
          exact set_kms_signature_algo_ok _ _ _ hs
    · rw [if_neg hr] at h
      simp at h

/-- C7: `set_ca(true)` requests basic-constraints ca=true and overwrites
key-usage to exactly key_cert_sign+crl_sign and extended-key-usage to
exactly ocsp_signing; `set_ca(false)` writes ca=false with
digital_signature+key_encipherment and server_auth+client_auth;
`set_ca(none)` clears basic-constraints (the `ca` property reads back
none, and the built request emits no basic-constraints extension) while
leaving key-usage and extended-key-usage untouched.  The hypothesis rules
out a basic-constraints entry smuggled into the open extension map, which
`set_extension` never routes there. -/
theorem c7_set_ca (b : KMSCSRBuilder)
    (h : "basic_constraints" ∉ b.other_extensions.map Prod.fst) :
    (b.set_ca (some true)).basic_constraints = some { ca := true }
    ∧ (b.set_ca (some true)).get_key_usage = ["key_cert_sign", "crl_sign"]
    ∧ (b.set_ca (some true)).get_extended_key_usage = ["ocsp_signing"]
    ∧ (b.set_ca (some false)).basic_constraints = some { ca := false }
    ∧ (b.set_ca (some false)).get_key_usage = ["digital_signature", "key_encipherment"]
    ∧ (b.set_ca (some false)).get_extended_key_usage = ["server_auth", "client_auth"]
    ∧ (b.set_ca none).ca = none
    ∧ (b.set_ca none).key_usage = b.key_usage
    ∧ (b.set_ca none).extended_key_usage = b.extended_key_usage
    ∧ "basic_constraints" ∉ (b.set_ca none).build_extensions.map Extension.extn_id := by
  refine ⟨rfl, rfl, rfl, rfl, rfl, rfl, rfl, rfl, rfl, ?_⟩
  rw [build_ext_ids]
  intro hm
  rcases List.mem_append.mp hm with hm | hm
  · have h2 := (List.mem_filter.mp hm).2
    simp [KMSCSRBuilder.set_ca, KMSCSRBuilder.special_value] at h2
  · rw [mem_sortStr] at hm
    exact h hm

/-- C7 witness: the theorem at the concrete example builder (whose open
extension map is empty). -/
theorem c7_set_ca_witness :
    "basic_constraints" ∉ bEx.other_extensions.map Prod.fst
    ∧ (bEx.set_ca (some true)).get_key_usage = ["key_cert_sign", "crl_sign"]
    ∧ (bEx.set_ca none).ca = none
    ∧ "basic_constraints" ∉ (bEx.set_ca none).build_extensions.map Extension.extn_id :=
  ⟨by decide,
   (c7_set_ca bEx (by decide)).2.1,
   (c7_set_ca bEx (by decide)).2.2.2.2.2.2.1,
   (c7_set_ca bEx (by decide)).2.2.2.2.2.2.2.2.2⟩

/-- C8: `set_extension` rejects a value that is not an instance of the
identity's expected value class with a `TypeError` (the spec's
EncodingError) before touching any state — in this functional model an
error result carries no new state, mirroring that the exception is raised
before any assignment in the source; a matching value for one of the four
special identities is stored in its dedicated field leaving the open map
unchanged; a matching value for any other identity lands in the open map
under its key; and a null value for an open-map identity deletes the key
instead of storing null. -/
theorem c8_set_extension (b : KMSCSRBuilder) (name spec : String) (v : AsnValue)
    (hs : extn_spec name = some spec) :
    (v.clsName ≠ spec → b.set_extension name (some v) = .error .typeError)
    ∧ (v.clsName = spec → name ∉ special_extensions →
        b.set_extension name (some v)
          = .ok { b with other_extensions := dictInsert b.other_extensions name v }
        ∧ pyLookup (dictInsert b.other_extensions name v) name = some v)
    ∧ (v.clsName = spec → name ∈ special_extensions →
        b.set_extension name (some v) = .ok (b.store_special name (some v))
        ∧ (b.store_special name (some v)).other_extensions = b.other_extensions)
    ∧ (name ∉ special_extensions →
        b.set_extension name none
          = .ok { b with other_extensions := dictErase b.other_extensions name }
        ∧ pyLookup (dictErase b.other_extensions name) name = none) := by
  refine ⟨?_, ?_, ?_, ?_⟩
  · intro hv
    simp [KMSCSRBuilder.set_extension, hs, hv]
  · intro hv hn
    exact ⟨by simp [KMSCSRBuilder.set_extension, hs, hv, hn],
           pyLookup_dictInsert_self _ _ _⟩
  · intro hv hn
    refine ⟨by simp [KMSCSRBuilder.set_extension, hs, hv, hn], ?_⟩
    have h4 : name = "basic_constraints" ∨ name = "subject_alt_name"
        ∨ name = "key_usage" ∨ name = "extended_key_usage" := by
      simpa [special_extensions] using hn
    rcases h4 with h4 | h4 | h4 | h4 <;> subst h4 <;> rfl
  · intro hn
    exact ⟨by simp [KMSCSRBuilder.set_extension, hs, hn],
           pyLookup_dictErase_self _ _⟩

/-- C8 witness: a KeyUsage value offered for the certificate_policies
identity is rejected with TypeError; a matching value for an open-map
identity is stored there. -/
theorem c8_set_extension_witness :
    extn_spec "certificate_policies" = some "CertificatePolicies"
    ∧ (AsnValue.keyUsage ["digital_signature"]).clsName ≠ "CertificatePolicies"
    ∧ bEx.set_extension "certificate_policies"
        (some (.keyUsage ["digital_signature"])) = .error .typeError
    ∧ bEx.set_extension "certificate_policies"
        (some (.other "CertificatePolicies" "policy-data"))
        = .ok { bEx with other_extensions :=
                  (dictInsert bEx.other_extensions "certificate_policies"
                    (.other "CertificatePolicies" "policy-data")) } :=
  ⟨rfl, by decide,
   (c8_set_extension bEx "certificate_policies" "CertificatePolicies"
     (.keyUsage ["digital_signature"]) rfl).1 (by decide),
   ((c8_set_extension bEx "certificate_policies" "CertificatePolicies"
     (.other "CertificatePolicies" "policy-data") rfl).2.1 (by decide) (by decide)).1⟩

/-- C9: a successful build reassigns only `_kms_signature_algo`, to the
remote name negotiated from the current hash and the classified key type
(and, for RSA, the PSS-vs-PKCS1v1.5 reading of the prior preference) —
so a caller's configured preference can be silently replaced — while
subject, hash, all extension state and the cached public key are left
exactly as configured. -/
theorem c9_build_frame (b : KMSCSRBuilder) (algos : List String) (s : String)
    (b2 : KMSCSRBuilder) (r : CertificationRequest)
    (h : b.build_with_kms algos s = .ok (b2, r)) :
    b2.subject = b.subject
    ∧ b2.kms_arn = b.kms_arn
    ∧ b2.hash_algo = b.hash_algo
    ∧ b2.basic_constraints = b.basic_constraints
    ∧ b2.subject_alt_name = b.subject_alt_name
    ∧ b2.key_usage = b.key_usage
    ∧ b2.extended_key_usage = b.extended_key_usage
    ∧ b2.other_extensions = b.other_extensions
    ∧ b2.subject_public_key = b.subject_public_key
    ∧ b2.kms_signature_algo =
        (if "RSASSA_PSS_SHA_256" ∈ algos then
           (if pyInStr "PSS" b.kms_signature_algo = true then "RSASSA_PSS_SHA_"
            else "RSASSA_PKCS1_V1_5_SHA_") ++ pyLast3 b.hash_algo
         else "ECDSA_SHA_" ++ pyLast3 b.hash_algo) := by
  by_cases hm : "RSASSA_PSS_SHA_256" ∈ algos
  · have hc : classify_key algos = .ok "rsa" := by simp [classify_key, hm]
    rcases hn : b.negotiate "rsa" with e | p
    · have hb : b.build_with_kms algos s = .error e := by
        simp [KMSCSRBuilder.build_with_kms, hc, hn]
      rw [hb] at h; simp at h
    · obtain ⟨sid, b3⟩ := p
      have hb := build_with_kms_eq b algos s "rsa" sid b3 hc hn
      rw [hb] at h
      simp only [Except.ok.injEq, Prod.mk.injEq] at h
      have hksa := negotiate_ok_ksa b "rsa" sid b3 hn
      rw [← h.1, hksa]
      by_cases hp : pyInStr "PSS" b.kms_signature_algo = true <;>
        simp [hm, hp, show pyInStr "ecdsa" "rsa" = false from rfl]
  · by_cases hm2 : "ECDSA_SHA_256" ∈ algos
    · have hc : classify_key algos = .ok "ecdsa" := by simp [classify_key, hm, hm2]
      rcases hn : b.negotiate "ecdsa" with e | p
      · have hb : b.build_with_kms algos s = .error e := by
          simp [KMSCSRBuilder.build_with_kms, hc, hn]
        rw [hb] at h; simp at h
      · obtain ⟨sid, b3⟩ := p
        have hb := build_with_kms_eq b algos s "ecdsa" sid b3 hc hn
        rw [hb] at h
        simp only [Except.ok.injEq, Prod.mk.injEq] at h
        have hksa := negotiate_ok_ksa b "ecdsa" sid b3 hn
        rw [← h.1, hksa]
        simp [hm, show pyInStr "ecdsa" "ecdsa" = true from rfl]
    · have hc : classify_key algos = .error .nameError := by simp [classify_key, hm, hm2]
      have hb : b.build_with_kms algos s = .error .nameError := by
        simp [KMSCSRBuilder.build_with_kms, hc]
      rw [hb] at h; simp at h

/-- C9 witness: a concrete successful EC build; the preference the caller
configured (RSASSA_PSS_SHA_256) is replaced by the negotiated
ECDSA_SHA_256 while every other field survives. -/
theorem c9_build_frame_witness :
    ∃ b2 r, bEx.build_with_kms ["ECDSA_SHA_256"] "SIG" = .ok (b2, r)
      ∧ b2.subject = bEx.subject
      ∧ b2.other_extensions = bEx.other_extensions
      ∧ b2.kms_signature_algo = "ECDSA_SHA_256" :=
  ⟨{ bEx with kms_signature_algo := "ECDSA_SHA_256" },
   { certification_request_info :=
       ({ bEx with kms_signature_algo := "ECDSA_SHA_256" } : KMSCSRBuilder).make_cri,
     signature_algorithm := .plain "sha256_ecdsa",
     signature := "SIG" },
   rfl,
   (c9_build_frame bEx ["ECDSA_SHA_256"] "SIG" _ _ rfl).1,
   (c9_build_frame bEx ["ECDSA_SHA_256"] "SIG" _ _ rfl).2.2.2.2.2.2.2.1,
   rfl⟩

lemma filter_name_map_mk (n1 n2 : String) (h : n2 ≠ n1) (values : List String) :
    ((values.map (fun v => ({ name := n1, value := v } : GeneralName))).filter
      (fun g => g.name = n2)) = [] := by
  have h1 : ¬(n1 = n2) := fun e => h e.symm
  induction values with
  | nil => rfl
  | cons v vl ih => simp [List.filter_cons, h1, ih]

lemma filter_and_name (n1 n2 : String) (h : n2 ≠ n1) (l : List GeneralName) :
    l.filter (fun a => decide (a.name = n2) && !decide (a.name = n1))
      = l.filter (fun g => g.name = n2) :=
  List.filter_congr (fun a _ => by by_cases hx : a.name = n2 <;> simp [hx, h])

lemma get_subject_alt_mk (b : KMSCSRBuilder) (l : List GeneralName) (n : String) :
    ({ b with subject_alt_name := if l.isEmpty then none else some l }
      : KMSCSRBuilder).get_subject_alt n
      = (l.filter (fun g => g.name = n)).map GeneralName.value := by
  cases l <;> simp [KMSCSRBuilder.get_subject_alt]

lemma get_set_subject_alt_ne (b : KMSCSRBuilder) (n1 n2 : String)
    (vs : Option (List String)) (h : n2 ≠ n1) :
    (b.set_subject_alt n1 vs).get_subject_alt n2 = b.get_subject_alt n2 := by
  rw [KMSCSRBuilder.set_subject_alt, get_subject_alt_mk, KMSCSRBuilder.san_combined]
  rcases hb : b.subject_alt_name with _ | gns
  · simp [KMSCSRBuilder.get_subject_alt, hb, filter_name_map_mk n1 n2 h]
  · simp [KMSCSRBuilder.get_subject_alt, hb, filter_name_map_mk n1 n2 h,
      filter_and_name n1 n2 h]

/-- C10: `subject_alt_domains=` replaces only the dns_name general names,
leaving every ip_address entry (its values and order) unchanged, and
`subject_alt_ips=` symmetrically preserves the dns_name entries; the
stored SAN becomes `None` exactly when the combined kept+new list is
empty, in which case both properties read back as empty lists and the
built request emits no subject-alt-name extension (given none was
smuggled into the open extension map, which `set_extension` never does).
-/
theorem c10_subject_alt (b : KMSCSRBuilder) (vs : Option (List String)) :
    (b.set_subject_alt_domains vs).subject_alt_ips = b.subject_alt_ips
    ∧ (b.set_subject_alt_ips vs).subject_alt_domains = b.subject_alt_domains
    ∧ ((b.set_subject_alt_domains vs).subject_alt_name = none ↔
        b.san_combined "dns_name" vs = [])
    ∧ ((b.set_subject_alt_domains vs).subject_alt_name = none →
        (b.set_subject_alt_domains vs).subject_alt_domains = []
        ∧ (b.set_subject_alt_domains vs).subject_alt_ips = []
        ∧ ("subject_alt_name" ∉ b.other_extensions.map Prod.fst →
            "subject_alt_name"
              ∉ (b.set_subject_alt_domains vs).build_extensions.map Extension.extn_id)) := by
  refine ⟨get_set_subject_alt_ne b "dns_name" "ip_address" vs (by decide),
          get_set_subject_alt_ne b "ip_address" "dns_name" vs (by decide), ?_, ?_⟩
  · rcases hq : b.san_combined "dns_name" vs with _ | ⟨g, gl⟩ <;>
      simp [KMSCSRBuilder.set_subject_alt_domains, KMSCSRBuilder.set_subject_alt, hq]
  · intro hnone
    refine ⟨?_, ?_, ?_⟩
    · simp [KMSCSRBuilder.subject_alt_domains, KMSCSRBuilder.get_subject_alt, hnone]
    · simp [KMSCSRBuilder.subject_alt_ips, KMSCSRBuilder.get_subject_alt, hnone]
    · intro hoth hm
      rw [build_ext_ids] at hm
      rcases List.mem_append.mp hm with hm | hm
      · have h2 := (List.mem_filter.mp hm).2
        simp [KMSCSRBuilder.special_value, hnone] at h2
      · rw [mem_sortStr] at hm
        exact hoth hm

/-- C10 witness: a SAN holding one DNS and one IP name keeps its IP entry
across a domains update; a SAN holding only a DNS name collapses to no
extension when domains are cleared. -/
theorem c10_subject_alt_witness :
    (({ bEx with subject_alt_name :=
        (some [{ name := "dns_name", value := "www.example.org" },
               { name := "ip_address", value := "10.0.0.1" }]) }
      : KMSCSRBuilder).set_subject_alt_domains (some ["app.example.org"])).subject_alt_ips
      = ({ bEx with subject_alt_name :=
            (some [{ name := "dns_name", value := "www.example.org" },
                   { name := "ip_address", value := "10.0.0.1" }]) }
          : KMSCSRBuilder).subject_alt_ips
    ∧ (({ bEx with subject_alt_name := (some [{ name := "dns_name", value := "a.example" }]) }
        : KMSCSRBuilder).set_subject_alt_domains none).subject_alt_name = none
    ∧ (({ bEx with subject_alt_name := (some [{ name := "dns_name", value := "a.example" }]) }
        : KMSCSRBuilder).set_subject_alt_domains none).subject_alt_domains = []
    ∧ ("subject_alt_name"
        ∉ (({ bEx with subject_alt_name := (some [{ name := "dns_name", value := "a.example" }]) }
            : KMSCSRBuilder).set_subject_alt_domains none).build_extensions.map
          Extension.extn_id) :=
  ⟨(c10_subject_alt
      { bEx with subject_alt_name :=
          (some [{ name := "dns_name", value := "www.example.org" },
                 { name := "ip_address", value := "10.0.0.1" }]) }
      (some ["app.example.org"])).1,
   rfl,
   ((c10_subject_alt
      { bEx with subject_alt_name := (some [{ name := "dns_name", value := "a.example" }]) }
      none).2.2.2 rfl).1,
   (((c10_subject_alt
      { bEx with subject_alt_name := (some [{ name := "dns_name", value := "a.example" }]) }
      none).2.2.2 rfl).2.2 (by decide))⟩
